import Mathlib

set_option maxRecDepth 20000

/-!
Verification of the invoice extraction-and-escalation pipeline
(`backend/app/models/invoice.py`, `backend/app/services/local_extraction_service.py`,
`backend/app/services/claude_service.py`, `backend/app/services/invoice_processor.py`).

Modelling conventions:
* Python `Decimal` amounts and `float` confidence scores are modelled as `ℚ`.
  `Decimal` arithmetic on the amounts occurring here is exact; the 28-significant-digit
  context rounding of `Decimal` division is abstracted to exact rational division
  (it is followed by a 2-decimal quantize in the source wherever it occurs).
* `Decimal.quantize(Decimal("0.01"))` uses ROUND_HALF_EVEN; where the source catches
  `InvalidOperation` (namely `_parse_decimal`), the quantize step is modelled as an
  `Option`, `none` standing for the raised `InvalidOperation` (which also covers the
  non-finite specials `NaN`/`Infinity` that `Decimal(str)` accepts, since quantizing
  them raises the same exception the source catches).
* Pydantic-v1 model construction is embedded explicitly: fields are validated in
  declaration order, each custom validator receives the dict of previously assigned
  values (modelled as a small structure of the fields it reads or writes), and after a
  field's validators run, the field's own validated input value is assigned into the
  dict, overwriting any entry a previous validator wrote there.  A failed constraint
  (`gt`/`ge`/`le`) raises `ValidationError`, modelled as `none`.
* The wall-clock metadata field `extracted_at` (`datetime.now()`) and the extra
  keyword `extraction_method` (not a declared field of `InvoiceData`; pydantic's
  default `Extra.ignore` drops it) are not modelled.
-/

namespace InvoiceAI

/-- Monetary amounts and confidence scores (Python `Decimal` / `float`). -/
abbrev Money := ℚ

/-- A calendar date, as produced by Python `datetime.date`. -/
structure Date where
  year : Nat
  month : Nat
  day : Nat
deriving DecidableEq, Repr

/-- Gregorian leap-year rule, as used by Python `datetime`. -/
def isLeapYear (y : Nat) : Bool :=
  (y % 4 == 0 && y % 100 != 0) || y % 400 == 0

/-- Number of days of month `m` in year `y` (Python `calendar` rules). -/
def daysInMonth (y m : Nat) : Nat :=
  if m == 2 then (if isLeapYear y then 29 else 28)
  else if m == 4 || m == 6 || m == 9 || m == 11 then 30
  else 31

/-- Validity condition of Python `datetime.date(year, month, day)`
(`MINYEAR = 1`, `MAXYEAR = 9999`; day must fit the month). -/
def Date.valid (d : Date) : Bool :=
  1 ≤ d.year && d.year ≤ 9999 && 1 ≤ d.month && d.month ≤ 12 &&
    1 ≤ d.day && d.day ≤ daysInMonth d.year d.month

/-- `datetime.date(y, m, d)`: `some` on success, `none` for the `ValueError`
raised on an out-of-range component. -/
def mkDate (y m d : Nat) : Option Date :=
  if Date.valid ⟨y, m, d⟩ then some ⟨y, m, d⟩ else none

/-- Round `q * 100` to an integer with ROUND_HALF_EVEN (banker's rounding),
the default rounding of Python `Decimal`, computed on the exact fraction
`(q.num * 100) / q.den`: `f` is its floor (flooring integer division by the
positive denominator), `r` the nonnegative remainder, and the fractional part
`r / den` is compared with one half by cross-multiplication. -/
def roundHalfEvenAt2 (q : ℚ) : ℤ :=
  let num : ℤ := q.num * 100
  let den : ℤ := (q.den : ℤ)
  let f : ℤ := num.fdiv den
  let r : ℤ := num - f * den
  if 2 * r < den then f
  else if den < 2 * r then f + 1
  else if f % 2 = 0 then f else f + 1

/-- `Decimal.quantize(Decimal("0.01"))`, exact-arithmetic model (no context
precision limit): round to two decimal places, half to even. -/
def quantize2 (q : ℚ) : ℚ :=
  mkRat (roundHalfEvenAt2 q) 100

/-- `Decimal.quantize(Decimal("0.01"))` including the `InvalidOperation` raised
when the rounded coefficient exceeds the default 28-digit context precision;
`none` models the exception. -/
def quantize2Checked (q : ℚ) : Option ℚ :=
  if (roundHalfEvenAt2 q).natAbs < Nat.pow 10 28 then
    some (mkRat (roundHalfEvenAt2 q) 100)
  else none

/-- `ExtractionResult` dataclass of `local_extraction_service.py`. -/
structure ExtractionResult (α : Type) where
  value : α
  confidence : ℚ
  source : String
deriving DecidableEq, Repr

/-- `CompanyInfo` model (`models/invoice.py`).  It has no custom validators;
its `confidence` bounds are checked at its own pydantic construction, which no
claim depends on, so the structure is used directly. -/
structure CompanyInfo where
  name : String
  tax_id : Option String
  address : Option String
  postal_code : Option String
  city : Option String
  country : Option String
  email : Option String
  phone : Option String
  confidence : ℚ
deriving DecidableEq, Repr

/-- A `CompanyInfo` with only name, tax id and confidence set, the shape built
by the extraction services (`country` keeps its declared default `"España"`). -/
def CompanyInfo.basic (name : String) (tax_id : Option String) (confidence : ℚ) :
    CompanyInfo :=
  ⟨name, tax_id, none, none, none, some "España", none, none, confidence⟩

/-- `InvoiceLine` model (`models/invoice.py`). -/
structure InvoiceLine where
  description : String
  quantity : ℚ
  unit_price : Money
  line_total : Money
  tax_rate : Option ℚ
  confidence : ℚ
deriving DecidableEq, Repr

/-- The subset of pydantic's `values` dict visible to `validate_line_total`:
when the `line_total` field is validated, `quantity` and `unit_price` are
already assigned and `confidence` is not yet (`values.get('confidence', 1.0)`
therefore reads the default). -/
structure LineValues where
  quantity : ℚ
  unit_price : Money
  confidence : Option ℚ
deriving DecidableEq, Repr

/-- `InvoiceLine.validate_line_total` (`models/invoice.py` lines 28-42): if the
given total differs from `quantity × unit_price` by more than 0.01 it lowers
`values['confidence']` to at most 0.5; it returns the given value unchanged. -/
def validate_line_total (v : Money) (values : LineValues) : Money × LineValues :=
  if |v - values.quantity * values.unit_price| > 1/100 then
    (v, { values with confidence := some (min (values.confidence.getD 1) (1/2)) })
  else (v, values)

/-- Pydantic construction of `InvoiceLine`.  Field order: `description`,
`quantity` (gt=0), `unit_price`, `line_total` (validator `validate_line_total`),
`tax_rate` (ge=0, le=100 when present), `confidence` (ge=0, le=1).  The write
of `validate_line_total` into `values['confidence']` is discarded when the
`confidence` field is subsequently assigned from the input. -/
def InvoiceLine.construct (description : String) (quantity : ℚ)
    (unit_price line_total : Money) (tax_rate : Option ℚ) (confidence : ℚ) :
    Option InvoiceLine :=
  if quantity > 0 then
    let step := validate_line_total line_total ⟨quantity, unit_price, none⟩
    let taxOk : Bool := match tax_rate with
      | some r => decide (0 ≤ r) && decide (r ≤ 100)
      | none => true
    if taxOk && decide (0 ≤ confidence) && decide (confidence ≤ 1) then
      -- `step.2.confidence` (the validator's write) is dropped here: the
      -- `confidence` field is assigned from the input after `line_total`.
      some ⟨description, quantity, unit_price, step.1, tax_rate, confidence⟩
    else none
  else none

/-- `InvoiceData` model (`models/invoice.py`).  `extracted_at` (wall clock) is
not modelled; the extra constructor keyword `extraction_method` is dropped by
pydantic (`Extra.ignore`) and hence absent. -/
structure InvoiceData where
  invoice_number : String
  invoice_date : Date
  due_date : Option Date
  supplier : CompanyInfo
  client : CompanyInfo
  lines : List InvoiceLine
  subtotal : Money
  tax_amount : Money
  total : Money
  currency : String
  payment_method : Option String
  notes : Option String
  confidence_score : ℚ
  requires_review : Bool
deriving DecidableEq, Repr

/-- The subset of pydantic's `values` dict visible to `validate_total`: when
the `total` field is validated, `subtotal` and `tax_amount` are already
assigned while `confidence_score` and `requires_review` are not yet. -/
structure DataValues where
  subtotal : Money
  tax_amount : Money
  confidence_score : Option ℚ
  requires_review : Option Bool
deriving DecidableEq, Repr

/-- `InvoiceData.validate_total` (`models/invoice.py` lines 96-111): if the
given total differs from `subtotal + tax_amount` by more than 0.01 it writes
`values['requires_review'] = True` and caps `values['confidence_score']` at
0.6 (`values.get('confidence_score', 1.0)` reads the default at this point);
it returns the given value unchanged. -/
def validate_total (v : Money) (values : DataValues) : Money × DataValues :=
  if |v - (values.subtotal + values.tax_amount)| > 1/100 then
    (v, { values with
            requires_review := some true,
            confidence_score := some (min (values.confidence_score.getD 1) (6/10)) })
  else (v, values)

/-- `InvoiceData.check_confidence` (`models/invoice.py` lines 113-123),
validator of the `requires_review` field: forces `True` when the already
assigned `confidence_score` is below 0.7, otherwise keeps the given value. -/
def check_confidence (v : Bool) (confidence_score : Option ℚ) : Bool :=
  match confidence_score with
  | some c => if c < 7/10 then true else v
  | none => v

/-- Pydantic construction of `InvoiceData`.  Declaration order of the fields
involved in validation: `subtotal`, `tax_amount`, `total` (validator
`validate_total`), ..., `confidence_score` (ge=0, le=1), ..., `requires_review`
(validator `check_confidence`).  After `validate_total` runs, the later fields
`confidence_score` and `requires_review` are each assigned from the input when
their turn comes, overwriting the entries `validate_total` wrote into `values`;
only its returned (unchanged) `total` survives. -/
def InvoiceData.construct (invoice_number : String) (invoice_date : Date)
    (due_date : Option Date) (supplier client : CompanyInfo)
    (lines : List InvoiceLine) (subtotal tax_amount total : Money)
    (currency : String) (payment_method notes : Option String)
    (confidence_score : ℚ) (requires_review : Bool) : Option InvoiceData :=
  let step := validate_total total ⟨subtotal, tax_amount, none, none⟩
  if decide (0 ≤ confidence_score) && decide (confidence_score ≤ 1) then
    -- assignment of the `confidence_score` field overwrites `step.2.confidence_score`
    let conf := confidence_score
    -- the `requires_review` field's validator reads the assigned `conf`; its
    -- result overwrites `step.2.requires_review`
    let review := check_confidence requires_review (some conf)
    some ⟨invoice_number, invoice_date, due_date, supplier, client, lines,
          subtotal, tax_amount, step.1, currency, payment_method, notes,
          conf, review⟩
  else none

/-! ### Tax-identifier validator (`_validate_tax_id`, local_extraction_service.py 264-280) -/

/-- Decimal digit, `\d` on the characters occurring here. -/
def isDigitChar (c : Char) : Bool := '0' ≤ c && c ≤ '9'

/-- Upper-case ASCII letter, the class `[A-Z]`. -/
def isUpperAlpha (c : Char) : Bool := 'A' ≤ c && c ≤ 'Z'

/-- The CIF leading-letter class `[ABCDEFGHJNPQRSUVW]`. -/
def cifLetters : List Char :=
  ['A', 'B', 'C', 'D', 'E', 'F', 'G', 'H', 'J', 'N', 'P', 'Q', 'R', 'S', 'U', 'V', 'W']

/-- The CIF control-character class `[A-J0-9]`. -/
def isCifControl (c : Char) : Bool := ('A' ≤ c && c ≤ 'J') || isDigitChar c

/-- `^[ABCDEFGHJNPQRSUVW]\d{7}[A-J0-9]$` on a 9-character string. -/
def matchesCIF : List Char → Bool
  | [a, d1, d2, d3, d4, d5, d6, d7, k] =>
      cifLetters.contains a && [d1, d2, d3, d4, d5, d6, d7].all isDigitChar &&
        isCifControl k
  | _ => false

/-- `^\d{8}[A-Z]$` on a 9-character string. -/
def matchesNIF : List Char → Bool
  | [d1, d2, d3, d4, d5, d6, d7, d8, k] =>
      [d1, d2, d3, d4, d5, d6, d7, d8].all isDigitChar && isUpperAlpha k
  | _ => false

/-- `^[XYZ]\d{7}[A-Z]$` on a 9-character string. -/
def matchesNIE : List Char → Bool
  | [a, d1, d2, d3, d4, d5, d6, d7, k] =>
      (a == 'X' || a == 'Y' || a == 'Z') &&
        [d1, d2, d3, d4, d5, d6, d7].all isDigitChar && isUpperAlpha k
  | _ => false

/-- `LocalExtractionService._validate_tax_id`: 9 characters and one of the
CIF / NIF / NIE grammars; `False` otherwise (the empty-string guard is
subsumed by the length check). -/
def validate_tax_id (s : String) : Bool :=
  if s.data.length ≠ 9 then false
  else matchesCIF s.data || matchesNIF s.data || matchesNIE s.data

/-! ### Amount parsing (`_parse_decimal`, local_extraction_service.py 417-447) -/

/-- Characters removed by `re.sub(r'[€$\s]', '', ·)`; `\s` is modelled by the
ASCII whitespace characters (the preceding `str.strip()` removes only
whitespace and is subsumed). -/
def isStrippedChar (c : Char) : Bool :=
  c == '€' || c == '$' || c == ' ' || c == '\t' || c == '\n' || c == '\r' ||
    c == '\x0b' || c == '\x0c'

/-- Index of the last occurrence of `c` in `cs` (Python `str.rfind`, meaningful
here only when `c` occurs). -/
def lastIdxOf (cs : List Char) (c : Char) : Nat :=
  (cs.enum.filter (fun p => p.2 == c)).foldl (fun _ p => p.1) 0

/-- The separator-disambiguation block of `_parse_decimal` (lines 429-443),
applied to the cleaned character list: with both separators the right-most one
becomes the decimal point and the other is removed; a single comma within the
last three characters becomes the decimal point; any other comma is removed. -/
def sepNormalize (cs : List Char) : List Char :=
  if cs.contains ',' && cs.contains '.' then
    if lastIdxOf cs ',' > lastIdxOf cs '.' then
      ((cs.filter (fun c => c ≠ '.')).map (fun c => if c == ',' then '.' else c))
    else cs.filter (fun c => c ≠ ',')
  else if cs.contains ',' then
    if cs.count ',' == 1 && (lastIdxOf cs ',' : ℤ) > (cs.length : ℤ) - 4 then
      cs.map (fun c => if c == ',' then '.' else c)
    else cs.filter (fun c => c ≠ ',')
  else cs

/-- Numeric value of a digit list (most significant first). -/
def digitsVal (cs : List Char) : Nat :=
  cs.foldl (fun a c => a * 10 + (c.toNat - 48)) 0

/-- Parse `digits ['.' digits?] | '.' digits` (the finite-number mantissa of
the `Decimal(str)` grammar) into its digit value and the number of fractional
digits: the mantissa denotes `value / 10 ^ fracDigits`. -/
def parseMantissaParts (cs : List Char) : Option (Nat × Nat) :=
  let ip := cs.takeWhile isDigitChar
  let rest := cs.dropWhile isDigitChar
  match rest with
  | [] => if ip.isEmpty then none else some (digitsVal ip, 0)
  | '.' :: rest2 =>
      let fp := rest2.takeWhile isDigitChar
      let rest3 := rest2.dropWhile isDigitChar
      if !rest3.isEmpty then none
      else if ip.isEmpty && fp.isEmpty then none
      else some (digitsVal (ip ++ fp), fp.length)
  | _ => none

/-- Parse an optionally signed decimal exponent (`digits` after `E`/`e` with
optional sign). -/
def parseExpo (cs : List Char) : Option ℤ :=
  let (sign, ds) : ℤ × List Char := match cs with
    | '+' :: rest => (1, rest)
    | '-' :: rest => (-1, rest)
    | _ => (1, cs)
  if ds.isEmpty || !ds.all isDigitChar then none
  else some (sign * (digitsVal ds : ℤ))

/-- `Decimal(str)` on a cleaned (whitespace-free) character list, restricted
to finite numbers: optional sign, mantissa, optional `E`/`e` exponent; `none`
models the `InvalidOperation` raised on anything else.  The special values
(`NaN`, `Infinity`, ...) that `Decimal` would accept are folded into `none`,
since the quantize step following every use here raises the same caught
`InvalidOperation` on them. -/
def pythonDecimal (cs : List Char) : Option ℚ :=
  let (sgn, body) : ℤ × List Char := match cs with
    | '+' :: rest => (1, rest)
    | '-' :: rest => (-1, rest)
    | _ => (1, cs)
  let expOpt : Option ℤ :=
    if (body.map Char.toLower).contains 'e' then
      parseExpo ((body.dropWhile (fun c => !(c.toLower == 'e'))).drop 1)
    else some 0
  let mant := body.takeWhile (fun c => !(c.toLower == 'e'))
  match parseMantissaParts mant, expOpt with
  | some (n, fl), some e =>
      -- the denoted value is sgn * n * 10 ^ (e - fl), assembled as one exact
      -- fraction
      let p : ℤ := e - (fl : ℤ)
      if 0 ≤ p then some (mkRat (sgn * (n : ℤ) * ((Nat.pow 10 p.toNat : ℕ) : ℤ)) 1)
      else some (mkRat (sgn * (n : ℤ)) (Nat.pow 10 (-p).toNat))
  | _, _ => none

/-- The cleaning step of `_parse_decimal`: strip currency symbols and
whitespace (`str.strip()` followed by `re.sub(r'[€$\s]', '', ·)`). -/
def cleanAmount (s : String) : List Char :=
  s.data.filter (fun c => !isStrippedChar c)

/-- `Decimal(cleaned).quantize(Decimal("0.01"))` wrapped in the
`except (ValueError, InvalidOperation)` that returns `Decimal("0")`. -/
def decimalParse (cs : List Char) : Money :=
  match (pythonDecimal cs).bind quantize2Checked with
  | some q => q
  | none => 0

/-- `LocalExtractionService._parse_decimal` on a string input: strip currency
symbols and whitespace, disambiguate the separators, `Decimal(cleaned)` and
quantize to two decimals; any `ValueError`/`InvalidOperation` yields the
`Decimal("0")` sentinel. -/
def parse_decimal (s : String) : Money :=
  decimalParse (sepNormalize (cleanAmount s))

/-! ### Totals cross-validation (`_extract_totals`, local_extraction_service.py 335-380) -/

/-- Python truthiness of the `Decimal` held by an extraction result. -/
def truthyMoney (r : ExtractionResult Money) : Bool := r.value ≠ 0

/-- The cross-validate-and-fix block of `_extract_totals` (lines 352-380): fill
in a missing (zero) member of subtotal/tax/total from the other two at
confidence 0.7, then, when the subtotal is still missing but a total exists,
estimate subtotal and tax from the default 21% IVA rate at confidence 0.5.
The keyword-window amount extraction feeding this block is abstracted into the
three arguments; new results carry the dataclass default source `"pattern"`. -/
def reconcile_totals (subtotal0 tax0 total0 : ExtractionResult Money) :
    ExtractionResult Money × ExtractionResult Money × ExtractionResult Money :=
  let fixed :=
    if truthyMoney total0 && !truthyMoney subtotal0 && truthyMoney tax0 then
      (⟨total0.value - tax0.value, 7/10, "pattern"⟩, tax0, total0)
    else if truthyMoney total0 && truthyMoney subtotal0 && !truthyMoney tax0 then
      (subtotal0, (⟨total0.value - subtotal0.value, 7/10, "pattern"⟩ : ExtractionResult Money), total0)
    else if truthyMoney subtotal0 && truthyMoney tax0 && !truthyMoney total0 then
      (subtotal0, tax0, (⟨subtotal0.value + tax0.value, 7/10, "pattern"⟩ : ExtractionResult Money))
    else (subtotal0, tax0, total0)
  let subtotal1 := fixed.1
  let tax1 := fixed.2.1
  let total1 := fixed.2.2
  if truthyMoney total1 && !truthyMoney subtotal1 then
    let s := quantize2 (total1.value / (121/100))
    (⟨s, 1/2, "pattern"⟩, ⟨total1.value - s, 1/2, "pattern"⟩, total1)
  else (subtotal1, tax1, total1)

/-! ### Escalation orchestrator (`invoice_processor.py`)

The remote (Claude) call is asynchronous I/O; its outcome for the given
document is abstracted into an `Except String InvoiceData` argument, `.error`
standing for a raised exception.  The number of Docling tables stands in for
the `docling_result.tables` list, which is all `_should_escalate_to_llm`
reads from it. -/

/-- `settings.LLM_ESCALATION_THRESHOLD` default (config.py line 66). -/
def LLM_ESCALATION_THRESHOLD : ℚ := 7/10

/-- `InvoiceProcessor._should_escalate_to_llm` (invoice_processor.py 185-221). -/
def should_escalate_to_llm (local_result : InvoiceData) (numTables : Nat) : Bool :=
  if local_result.requires_review then true
  else if local_result.confidence_score < LLM_ESCALATION_THRESHOLD then true
  else if local_result.invoice_number == "UNKNOWN" then true
  else if local_result.total = 0 then true
  else if local_result.supplier.name == "UNKNOWN" &&
          local_result.client.name == "UNKNOWN" then true
  else if numTables > 3 then true
  else false

/-- `InvoiceProcessor._extract_hybrid` (invoice_processor.py 139-183), given
the already computed local result: escalate when the check triggers and Claude
is available; on remote success keep the result whose `confidence_score` is
strictly higher (`llm_result.confidence_score > local_result.confidence_score`
chooses the remote record, anything else keeps the local one); on remote
failure (the `except` branch) keep the local result. -/
def extract_hybrid (local_result : InvoiceData) (numTables : Nat)
    (claude_available : Bool) (remote : Except String InvoiceData) : InvoiceData :=
  if should_escalate_to_llm local_result numTables && claude_available then
    match remote with
    | Except.ok llm_result =>
        if llm_result.confidence_score > local_result.confidence_score then
          llm_result
        else local_result
    | Except.error _ => local_result
  else local_result

/-- `InvoiceProcessor._extract_with_llm` (invoice_processor.py 121-137), the
force-remote path: when Claude is not available it falls back to the local
extraction result; otherwise it returns the remote call's outcome unguarded —
a raised exception propagates (there is no `try`/`except` here). -/
def extract_with_llm (claude_available : Bool) (local_result : InvoiceData)
    (remote : Except String InvoiceData) : Except String InvoiceData :=
  if !claude_available then Except.ok local_result else remote

/-! ### Remote extraction parsing (`ClaudeExtractionService._parse_extracted_data`,
claude_service.py 203-306)

The JSON dict returned by the model is abstracted into typed optional fields
(`data.get(...)` results after the `_parse_date` / `_parse_decimal` and
`float`/`Decimal(str(.))` conversions, whose failures surface as the `none` /
skipped-line cases the source handles). -/

/-- The `supplier` / `client` sub-dict of the remote JSON. -/
structure RemoteCompany where
  name : Option String
  tax_id : Option String
  address : Option String
  postal_code : Option String
  city : Option String
  email : Option String
  phone : Option String
deriving DecidableEq, Repr

/-- One entry of the remote `lines` list. -/
structure RemoteLine where
  description : Option String
  quantity : Option ℚ
  unit_price : Option ℚ
  line_total : Option ℚ
  tax_rate : Option ℚ
deriving DecidableEq, Repr

/-- Python `x or "UNKNOWN"` on an optional string (both `None` and the empty
string are falsy). -/
def orUnknown (o : Option String) : String :=
  match o with
  | some s => if s = "" then "UNKNOWN" else s
  | none => "UNKNOWN"

/-- The `CompanyInfo(...)` built for supplier/client in `_parse_extracted_data`
(confidence fixed at 0.95, `country` left at its declared default). -/
def parseRemoteCompany (j : RemoteCompany) : CompanyInfo :=
  ⟨orUnknown j.name, j.tax_id, j.address, j.postal_code, j.city,
    some "España", j.email, j.phone, 95/100⟩

/-- Python truthiness of an `Optional[Decimal]`. -/
def truthyOpt (o : Option ℚ) : Bool :=
  match o with
  | some q => q ≠ 0
  | none => false

/-- The validate-and-fix-totals block of `_parse_extracted_data` (claude_service.py
261-280): fill a missing/zero total from subtotal+tax or from the line totals,
derive a missing subtotal or tax by subtraction, then default the remainder
(zero total, 21% IVA split).  Returns the final `(subtotal, tax_amount, total)`. -/
def fixRemoteTotals (subtotal0 tax0 total0 : Option ℚ) (lines : List InvoiceLine) :
    ℚ × ℚ × ℚ :=
  let total1 : Option ℚ :=
    if total0 = none ∨ total0 = some 0 then
      if truthyOpt subtotal0 && truthyOpt tax0 then
        some (subtotal0.getD 0 + tax0.getD 0)
      else if !lines.isEmpty then
        some (lines.foldl (fun a l => a + l.line_total) 0)
      else total0
    else total0
  let subtotal1 : Option ℚ :=
    if subtotal0 = none ∧ truthyOpt total1 ∧ truthyOpt tax0 then
      some (total1.getD 0 - tax0.getD 0)
    else subtotal0
  let tax1 : Option ℚ :=
    if tax0 = none ∧ truthyOpt total1 ∧ truthyOpt subtotal1 then
      some (total1.getD 0 - subtotal1.getD 0)
    else tax0
  let total2 : ℚ := total1.getD 0
  let subtotal2 : ℚ := match subtotal1 with
    | some s => s
    | none => total2 / (121/100)
  let tax2 : ℚ := match tax1 with
    | some t => t
    | none => total2 - subtotal2
  (subtotal2, tax2, total2)

/-- `ClaudeExtractionService._parse_extracted_data`: builds the remote-path
`InvoiceData` with company confidences 0.95, line confidences 0.9 (lines whose
pydantic construction fails are skipped — `ValidationError` is a `ValueError`,
which the `except` around each line catches), reconciled totals quantized to
two decimals, `confidence_score = 0.92` and `requires_review = False`.
`none` models an exception escaping the method (a failed quantize or a failed
final model construction). -/
def parse_extracted_data (invoice_number : Option String)
    (invoice_date due_date : Option Date) (supplier client : RemoteCompany)
    (rlines : List RemoteLine) (subtotal0 tax0 total0 : Option ℚ)
    (currency : Option String) (payment_method notes : Option String)
    (today : Date) : Option InvoiceData :=
  let supplierC := parseRemoteCompany supplier
  let clientC := parseRemoteCompany client
  let lines := rlines.filterMap (fun l =>
    InvoiceLine.construct (l.description.getD "Item") (l.quantity.getD 1)
      (l.unit_price.getD 0) (l.line_total.getD 0) l.tax_rate (9/10))
  let t := fixRemoteTotals subtotal0 tax0 total0 lines
  let finalLines : Option (List InvoiceLine) :=
    if !lines.isEmpty then some lines
    else (InvoiceLine.construct "Servicio/Producto" 1 t.1 t.1 none (1/2)).map
      (fun l => [l])
  match finalLines, quantize2Checked t.1, quantize2Checked t.2.1,
      quantize2Checked t.2.2 with
  | some ls, some qsub, some qtax, some qtot =>
      InvoiceData.construct (orUnknown invoice_number) (invoice_date.getD today)
        due_date supplierC clientC ls qsub qtax qtot (currency.getD "EUR")
        payment_method notes (92/100) false
  | _, _, _, _ => none

/-! ### Date extraction (`_extract_invoice_date`, local_extraction_service.py 171-200)

The three `date_patterns` regexes and the `fecha` context regex are compiled
to explicit scanners with Python `re.search` semantics: leftmost match, greedy
bounded quantifiers with backtracking.  `strptime`/`datetime` range validation
is captured by `mkDate` (its `%d`/`%m`/`%Y` classes accept exactly the digit
strings whose values `mkDate` accepts, as two-digit fields below 32/13 and a
four-digit year). -/

/-- Numeric value of a digit character. -/
def dval (c : Char) : Nat := c.toNat - 48

/-- The ISO separator class: dash or slash. -/
def isSepISO (c : Char) : Bool := c == '-' || c == '/'

/-- The European separator class: dash, slash or dot. -/
def isSepEuro (c : Char) : Bool := c == '-' || c == '/' || c == '.'

/-- Python `\s` (ASCII whitespace; the inputs here contain no other). -/
def pySpace (c : Char) : Bool :=
  c == ' ' || c == '\t' || c == '\n' || c == '\r' || c == '\x0b' || c == '\x0c'

/-- Leftmost-match search: try the scanner at every suffix, left to right
(`re.search`). -/
def reSearch {α : Type} (f : List Char → Option α) : List Char → Option α
  | [] => f []
  | c :: rest =>
      match f (c :: rest) with
      | some r => some r
      | none => reSearch f rest

/-- First `some` produced by `f` over a list, in order. -/
def firstSome {α β : Type} (f : α → Option β) : List α → Option β
  | [] => none
  | x :: xs =>
      match f x with
      | some r => some r
      | none => firstSome f xs

/-- Match the ISO pattern (4 digits, separator, 2 digits, separator, 2 digits) at the head, returning `(year, month, day)`. -/
def matchISOAt : List Char → Option (Nat × Nat × Nat)
  | a :: b :: c :: d :: s1 :: e :: f :: s2 :: g :: h :: _ =>
      if [a, b, c, d, e, f, g, h].all isDigitChar && isSepISO s1 && isSepISO s2 then
        some (digitsVal [a, b, c, d], digitsVal [e, f], digitsVal [g, h])
      else none
  | _ => none

/-- Tail of the European pattern: separator then 4 digits. -/
def matchYearTail (day month : Nat) : List Char → Option (Nat × Nat × Nat)
  | s :: y1 :: y2 :: y3 :: y4 :: _ =>
      if isSepEuro s && [y1, y2, y3, y4].all isDigitChar then
        some (day, month, digitsVal [y1, y2, y3, y4])
      else none
  | _ => none

/-- Tail of the European pattern: 1-2 month digits, separator, 4 digits (month greedy, with
backtracking from two digits to one). -/
def matchMonthTail (day : Nat) : List Char → Option (Nat × Nat × Nat)
  | m1 :: rest =>
      if isDigitChar m1 then
        match rest with
        | m2 :: rest2 =>
            if isDigitChar m2 then
              match matchYearTail day (10 * dval m1 + dval m2) rest2 with
              | some r => some r
              | none => matchYearTail day (dval m1) rest
            else matchYearTail day (dval m1) rest
        | [] => none
      else none
  | [] => none

/-- Tail of the European pattern: separator, 1-2 month digits, separator, 4 digits. -/
def matchSepMonthTail (day : Nat) : List Char → Option (Nat × Nat × Nat)
  | s :: rest => if isSepEuro s then matchMonthTail day rest else none
  | [] => none

/-- Match the European pattern (1-2 digits, separator, 1-2 digits, separator, 4 digits) at the head (day greedy, with
backtracking), returning `(day, month, year)`. -/
def matchEuroAt : List Char → Option (Nat × Nat × Nat)
  | d1 :: rest =>
      if isDigitChar d1 then
        match rest with
        | d2 :: rest2 =>
            if isDigitChar d2 then
              match matchSepMonthTail (10 * dval d1 + dval d2) rest2 with
              | some r => some r
              | none => matchSepMonthTail (dval d1) rest
            else matchSepMonthTail (dval d1) rest
        | [] => none
      else none
  | [] => none

/-- The `spanish_months` table (local_extraction_service.py 67-71), in the
alternation order of the text pattern. -/
def spanishMonths : List (List Char × Nat) :=
  [("enero".data, 1), ("febrero".data, 2), ("marzo".data, 3), ("abril".data, 4),
   ("mayo".data, 5), ("junio".data, 6), ("julio".data, 7), ("agosto".data, 8),
   ("septiembre".data, 9), ("octubre".data, 10), ("noviembre".data, 11),
   ("diciembre".data, 12)]

/-- Strip a (lower-case) literal from the head, case-insensitively
(`re.IGNORECASE`). -/
def stripLiteralCI (p cs : List Char) : Option (List Char) :=
  match p, cs with
  | [], rest => some rest
  | _ :: _, [] => none
  | a :: ps, c :: rest => if c.toLower == a then stripLiteralCI ps rest else none

/-- Match `\s+de` (case-insensitively) at the head.  `\s+` is greedy; no
backtracking arises because no whitespace character can begin the literal. -/
def matchSpacesDe (cs : List Char) : Option (List Char) :=
  let sp := cs.takeWhile pySpace
  let rest := cs.dropWhile pySpace
  if sp.isEmpty then none else stripLiteralCI ['d', 'e'] rest

/-- Tail `\s+de\s+(month)\s+de\s+(\d{4})` of the Spanish text pattern.  The
month alternatives are pairwise non-prefix strings, so at most one can match
at a position and the ordered first match is the regex's choice. -/
def matchSpanishTail (day : Nat) (cs : List Char) : Option (Nat × Nat × Nat) :=
  match matchSpacesDe cs with
  | none => none
  | some r1 =>
      let sp2 := r1.takeWhile pySpace
      let r2 := r1.dropWhile pySpace
      if sp2.isEmpty then none
      else
        match firstSome
            (fun p => (stripLiteralCI p.1 r2).map (fun rest => (p.2, rest)))
            spanishMonths with
        | none => none
        | some (mon, r3) =>
            match matchSpacesDe r3 with
            | none => none
            | some r4 =>
                let sp3 := r4.takeWhile pySpace
                let r5 := r4.dropWhile pySpace
                if sp3.isEmpty then none
                else
                  match r5 with
                  | y1 :: y2 :: y3 :: y4 :: _ =>
                      if [y1, y2, y3, y4].all isDigitChar then
                        some (day, mon, digitsVal [y1, y2, y3, y4])
                      else none
                  | _ => none

/-- Match the Spanish long-form date pattern
`(\d{1,2})\s+de\s+(enero|...|diciembre)\s+de\s+(\d{4})` at the head,
returning `(day, month, year)`. -/
def matchSpanishAt : List Char → Option (Nat × Nat × Nat)
  | d1 :: rest =>
      if isDigitChar d1 then
        match rest with
        | d2 :: rest2 =>
            if isDigitChar d2 then
              match matchSpanishTail (10 * dval d1 + dval d2) rest2 with
              | some r => some r
              | none => matchSpanishTail (dval d1) rest
            else matchSpanishTail (dval d1) rest
        | [] => none
      else none
  | [] => none

/-- Search + `strptime` for the ISO pattern: the first regex match is parsed
and validated once; an invalid date fails the whole pattern (the `except`
continues with the next pattern, not the next match). -/
def isoDate (st : List Char) : Option Date :=
  (reSearch matchISOAt st).bind (fun t => mkDate t.1 t.2.1 t.2.2)

/-- Search + `strptime` (`%d/%m/%Y`) for the European pattern. -/
def euroDate (st : List Char) : Option Date :=
  (reSearch matchEuroAt st).bind (fun t => mkDate t.2.2 t.2.1 t.1)

/-- Search + `datetime(year, month, day)` for the Spanish text pattern. -/
def spanishDate (st : List Char) : Option Date :=
  (reSearch matchSpanishAt st).bind (fun t => mkDate t.2.2 t.2.1 t.1)

/-- The `date_patterns` loop of `_extract_invoice_date` (lines 181-200) over
the chosen search text: ISO at confidence 0.95, then European at 0.9, then
Spanish long form at 0.95, first success wins; when every pattern fails the
fallback result is **today's date** at confidence 0.3 (line 200). -/
def extract_date_from (st : List Char) (today : Date) : ExtractionResult Date :=
  match isoDate st with
  | some d => ⟨d, 95/100, "pattern"⟩
  | none =>
      match euroDate st with
      | some d => ⟨d, 9/10, "pattern"⟩
      | none =>
          match spanishDate st with
          | some d => ⟨d, 95/100, "pattern"⟩
          | none => ⟨today, 3/10, "pattern"⟩

/-- Backtracking tail of the `fecha` context regex after the literal:
`[^:]*` (greedy, may include newlines), `[:\s]+` (greedy, at least one), then
a capture of exactly 20 non-newline characters. -/
def fechaTail (rest : List Char) : Option (List Char) :=
  firstSome (fun a =>
      let restA := rest.drop a
      let maxB := ((restA.takeWhile (fun c => c == ':' || pySpace c)).length)
      firstSome (fun b =>
          if b == 0 then none
          else
            let cap := (restA.drop b).take 20
            if cap.length == 20 && cap.all (fun c => !(c == '\n')) then some cap
            else none)
        ((List.range (maxB + 1)).reverse))
    ((List.range ((rest.takeWhile (fun c => !(c == ':'))).length + 1)).reverse)

/-- Match `fecha[^:]*[:\s]+(.{20})` (case-insensitive) at the head, returning
the 20-character capture. -/
def matchFechaAt : List Char → Option (List Char)
  | f :: e :: c :: h :: a :: rest =>
      if f.toLower == 'f' && e.toLower == 'e' && c.toLower == 'c' &&
          h.toLower == 'h' && a.toLower == 'a' then
        fechaTail rest
      else none
  | _ => none

/-- `LocalExtractionService._extract_invoice_date`: narrow the search to the
20 characters following a `fecha` label when that regex matches, else the
whole content; then run the pattern loop, with today's date as the fallback
value. -/
def extract_invoice_date (content : List Char) (today : Date) :
    ExtractionResult Date :=
  extract_date_from ((reSearch matchFechaAt content).getD content) today

/-! ### Specification-side definitions and concrete instances used by the
theorems below -/

/-- The tax-identifier grammar as the specification words it (spec §4.1 /
claim C9): any upper-case letter + 7 digits + a trailing alphanumeric check
character; 8 digits + a trailing letter; or X/Y/Z + 7 digits + a trailing
letter.  Written from the spec, to be compared against `validate_tax_id`. -/
def claimTaxGrammar : List Char → Bool
  | [a, d1, d2, d3, d4, d5, d6, d7, k] =>
      (isUpperAlpha a && [d1, d2, d3, d4, d5, d6, d7].all isDigitChar &&
        (isUpperAlpha k || isDigitChar k)) ||
      ([a, d1, d2, d3, d4, d5, d6, d7].all isDigitChar && isUpperAlpha k) ||
      ((a == 'X' || a == 'Y' || a == 'Z') &&
        [d1, d2, d3, d4, d5, d6, d7].all isDigitChar && isUpperAlpha k)
  | _ => false

/-- `claimTaxGrammar` together with the 9-character length requirement. -/
def claimTaxValid (s : String) : Bool :=
  s.data.length == 9 && claimTaxGrammar s.data

/-- The shape actually accepted by the validator, stated structurally: nine
characters — a head character, seven digits, and a check character — where
the head/check classes are those of the source's three patterns (CIF head
restricted to `cifLetters` with check in A-J or digit; NIF all-digit with
upper-case check letter; NIE head X/Y/Z with upper-case check letter). -/
def TaxIdShape (s : String) : Prop :=
  ∃ a d1 d2 d3 d4 d5 d6 d7 k,
    s.data = [a, d1, d2, d3, d4, d5, d6, d7, k] ∧
    (∀ c ∈ [d1, d2, d3, d4, d5, d6, d7], isDigitChar c = true) ∧
    ((a ∈ cifLetters ∧ (('A' ≤ k ∧ k ≤ 'J') ∨ isDigitChar k = true)) ∨
     (isDigitChar a = true ∧ isUpperAlpha k = true) ∨
     ((a = 'X' ∨ a = 'Y' ∨ a = 'Z') ∧ isUpperAlpha k = true))

/-- A local-path record whose review flag triggers escalation, used as the
concrete local candidate in the orchestrator theorems. -/
def sampleLocal : InvoiceData :=
  ⟨"F2024-00123", ⟨2024, 1, 15⟩, none, CompanyInfo.basic "Empresa" none (9/10),
    CompanyInfo.basic "Cliente" none (9/10), [], 2000, 420, 2420, "EUR",
    none, none, 8/10, true⟩

/-- A remote candidate with the same confidence score as `sampleLocal` but a
different invoice number. -/
def sampleRemote : InvoiceData :=
  ⟨"R-999", ⟨2024, 1, 15⟩, none, CompanyInfo.basic "Empresa" none (9/10),
    CompanyInfo.basic "Cliente" none (9/10), [], 2000, 420, 2420, "EUR",
    none, none, 8/10, false⟩

/-- The record produced by `InvoiceData.construct` for the repository's own
`test_invoice_data_total_validation` input (subtotal 100, tax 21, total 200,
confidence 0.9): the mismatch is not flagged. -/
def mismatchRecord : InvoiceData :=
  ⟨"TEST", ⟨2024, 1, 15⟩, none, CompanyInfo.basic "Test" none 1,
    CompanyInfo.basic "Test" none 1, [], 100, 21, 200, "EUR",
    none, none, 9/10, false⟩

/-- The record produced by `InvoiceData.construct` for a consistent-totals
input with confidence 0.5: the review flag is forced. -/
def lowConfRecord : InvoiceData :=
  ⟨"TEST", ⟨2024, 1, 15⟩, none, CompanyInfo.basic "Test" none 1,
    CompanyInfo.basic "Test" none 1, [], 100, 21, 121, "EUR",
    none, none, 1/2, true⟩

/-- A remote-JSON company with only the name set. -/
def sampleRemoteCompany (n : String) : RemoteCompany :=
  ⟨some n, none, none, none, none, none, none⟩

/-- The record produced by `parse_extracted_data` for a minimal remote JSON
(number INV-9, totals 100/21/121, no lines). -/
def remoteRecord : InvoiceData :=
  ⟨"INV-9", ⟨2026, 1, 1⟩, none,
    ⟨"Acme", none, none, none, none, some "España", none, none, 19/20⟩,
    ⟨"Beta", none, none, none, none, some "España", none, none, 19/20⟩,
    [⟨"Servicio/Producto", 1, 100, 100, none, 1/2⟩],
    100, 21, 121, "EUR", none, none, 92/100, false⟩

/-! ## Theorems -/

/-- `validate_total` returns the given total unchanged in both branches. -/
theorem validate_total_fst (v : Money) (vals : DataValues) :
    (validate_total v vals).1 = v := by
  unfold validate_total
  split <;> rfl

/-- Shared characterization of a successful pydantic `InvoiceData`
construction: every field equals its input, except that `requires_review`
passes through `check_confidence`. -/
theorem construct_some (n : String) (d : Date) (dd : Option Date)
    (sup cl : CompanyInfo) (ls : List InvoiceLine) (st ta tot : Money)
    (cur : String) (pm nt : Option String) (cs : ℚ) (rr : Bool)
    (r : InvoiceData)
    (h : InvoiceData.construct n d dd sup cl ls st ta tot cur pm nt cs rr =
      some r) :
    r = ⟨n, d, dd, sup, cl, ls, st, ta, tot, cur, pm, nt, cs,
          check_confidence rr (some cs)⟩ := by
  simp only [InvoiceData.construct] at h
  split at h
  · rw [Option.some.injEq] at h
    rw [← h, validate_total_fst]
  · exact Option.noConfusion h

/-- C2 (confirmed): for every successfully constructed `InvoiceData`, a
`confidence_score` below 0.7 forces `requires_review = true` — the
`check_confidence` validator runs after `confidence_score` is assigned and
returns `True` below the threshold. -/
theorem c2_low_confidence_forces_review (n : String) (d : Date)
    (dd : Option Date) (sup cl : CompanyInfo) (ls : List InvoiceLine)
    (st ta tot : Money) (cur : String) (pm nt : Option String) (cs : ℚ)
    (rr : Bool) (r : InvoiceData)
    (h : InvoiceData.construct n d dd sup cl ls st ta tot cur pm nt cs rr =
      some r)
    (hc : r.confidence_score < 7/10) : r.requires_review = true := by
  have hr := construct_some n d dd sup cl ls st ta tot cur pm nt cs rr r h
  subst hr
  simp only [check_confidence]
  rw [if_pos hc]

/-- Witness for C2: the concrete construction with confidence 0.5 and the
review flag given as `False` yields `requires_review = true`. -/
theorem c2_witness :
    InvoiceData.construct ("TEST") ⟨2024, 1, 15⟩ none
        (CompanyInfo.basic ("Test") none 1) (CompanyInfo.basic ("Test") none 1)
        [] 100 21 121 ("EUR") none none (1/2) false = some lowConfRecord ∧
      lowConfRecord.requires_review = true :=
  ⟨by with_unfolding_all decide,
   c2_low_confidence_forces_review ("TEST") ⟨2024, 1, 15⟩ none
     (CompanyInfo.basic ("Test") none 1) (CompanyInfo.basic ("Test") none 1)
     [] 100 21 121 ("EUR") none none (1/2) false lowConfRecord
     (by with_unfolding_all decide) (by with_unfolding_all decide)⟩

/-- Counterexample to C3 as stated: the repository's own test input
(subtotal 100, tax 21, total 200 — a mismatch of 79, far beyond 0.02 — with
confidence 0.9) constructs a record with `requires_review = false` and
confidence 0.9 > 0.7: the mismatch validator's writes are discarded. -/
theorem c3_counterexample :
    InvoiceData.construct ("TEST") ⟨2024, 1, 15⟩ none
        (CompanyInfo.basic ("Test") none 1) (CompanyInfo.basic ("Test") none 1)
        [] 100 21 200 ("EUR") none none (9/10) false = some mismatchRecord ∧
      |mismatchRecord.total - (mismatchRecord.subtotal +
        mismatchRecord.tax_amount)| > 2/100 ∧
      mismatchRecord.requires_review = false ∧
      7/10 < mismatchRecord.confidence_score := by
  with_unfolding_all decide

/-- C3 (corrected): a constructed record keeps its given `subtotal`,
`tax_amount`, `total` and `confidence_score` unchanged, and `requires_review`
equals the given flag except that `confidence_score < 0.7` forces it true.
The total-mismatch check of `validate_total` (tolerance 0.01, intended cap
0.6) never alters the constructed record, because its writes into `values`
target fields that are subsequently re-assigned from the input. -/
theorem c3_total_mismatch_validator_ineffective (n : String) (d : Date)
    (dd : Option Date) (sup cl : CompanyInfo) (ls : List InvoiceLine)
    (st ta tot : Money) (cur : String) (pm nt : Option String) (cs : ℚ)
    (rr : Bool) (r : InvoiceData)
    (h : InvoiceData.construct n d dd sup cl ls st ta tot cur pm nt cs rr =
      some r) :
    r.subtotal = st ∧ r.tax_amount = ta ∧ r.total = tot ∧
      r.confidence_score = cs ∧
      r.requires_review = (if cs < 7/10 then true else rr) := by
  have hr := construct_some n d dd sup cl ls st ta tot cur pm nt cs rr r h
  subst hr
  exact ⟨rfl, rfl, rfl, rfl, rfl⟩

/-- Witness for C3 (amended): applying the characterization to the concrete
mismatching construction. -/
theorem c3_witness :
    mismatchRecord.subtotal = 100 ∧ mismatchRecord.tax_amount = 21 ∧
      mismatchRecord.total = 200 ∧ mismatchRecord.confidence_score = 9/10 ∧
      mismatchRecord.requires_review =
        (if (9/10 : ℚ) < 7/10 then true else false) :=
  c3_total_mismatch_validator_ineffective ("TEST") ⟨2024, 1, 15⟩ none
    (CompanyInfo.basic ("Test") none 1) (CompanyInfo.basic ("Test") none 1)
    [] 100 21 200 ("EUR") none none (9/10) false mismatchRecord
    (by with_unfolding_all decide)

/-- C6 (code bug): an `InvoiceLine` constructed with quantity 5, unit price
10.00 and `line_total` 0 keeps `line_total = 0` — `validate_line_total`
returns the given value and never derives `quantity × unit_price` (the
repository's own `test_invoice_line_calculation` expects 50.00 here). -/
theorem c6_line_total_not_derived :
    InvoiceLine.construct ("Test") 5 10 0 none 1 =
        some ⟨"Test", 5, 10, 0, none, 1⟩ ∧
      (⟨"Test", 5, 10, 0, none, 1⟩ : InvoiceLine).line_total = 0 ∧
      (0 : ℚ) ≠ 50 := by
  with_unfolding_all decide

/-- C1 (corrected): in hybrid mode, once escalation triggers and the remote
call succeeds, the orchestrator returns one of the two candidates, namely the
one with the strictly higher `confidence_score` — but on equal scores it
keeps the LOCAL record, because the comparison `llm > local` is strict. -/
theorem c1_hybrid_keeps_higher_confidence_ties_local
    (localR llmR : InvoiceData) (numTables : Nat)
    (hesc : should_escalate_to_llm localR numTables = true) :
    (extract_hybrid localR numTables true (Except.ok llmR) = llmR ∨
      extract_hybrid localR numTables true (Except.ok llmR) = localR) ∧
    (extract_hybrid localR numTables true (Except.ok llmR)).confidence_score =
      max llmR.confidence_score localR.confidence_score ∧
    (llmR.confidence_score = localR.confidence_score →
      extract_hybrid localR numTables true (Except.ok llmR) = localR) ∧
    (localR.confidence_score < llmR.confidence_score →
      extract_hybrid localR numTables true (Except.ok llmR) = llmR) := by
  unfold extract_hybrid
  simp only [hesc, Bool.and_self, if_true]
  by_cases hlt : localR.confidence_score < llmR.confidence_score
  · rw [if_pos hlt]
    refine ⟨Or.inl rfl, (max_eq_left (le_of_lt hlt)).symm, ?_, fun _ => rfl⟩
    intro heq
    rw [heq] at hlt
    exact absurd hlt (lt_irrefl _)
  · rw [if_neg hlt]
    exact ⟨Or.inr rfl, (max_eq_right (not_lt.mp hlt)).symm, fun _ => rfl,
      fun h => absurd h hlt⟩

/-- Counterexample to C1's tie-break as claimed: with escalation triggered and
a successful remote record of exactly the local record's confidence, the
orchestrator returns the local record, not the remote one. -/
theorem c1_counterexample :
    should_escalate_to_llm sampleLocal 0 = true ∧
      sampleRemote.confidence_score = sampleLocal.confidence_score ∧
      extract_hybrid sampleLocal 0 true (Except.ok sampleRemote) = sampleLocal ∧
      sampleLocal ≠ sampleRemote := by
  with_unfolding_all decide

/-- Witness for C1 (amended), applied to the concrete tie. -/
theorem c1_witness :
    extract_hybrid sampleLocal 0 true (Except.ok sampleRemote) = sampleRemote ∨
      extract_hybrid sampleLocal 0 true (Except.ok sampleRemote) = sampleLocal :=
  (c1_hybrid_keeps_higher_confidence_ties_local sampleLocal sampleRemote 0
    (by with_unfolding_all decide)).1

/-- C4 (corrected): a failing remote call in hybrid mode always yields the
already computed local result, whatever the availability flag; in force-remote
mode the local fallback happens exactly when Claude is NOT available — with
Claude available, a failing remote call propagates the error instead of
returning the local result, and a successful one is returned as is. -/
theorem c4_remote_failure_fallback :
    (∀ (localR : InvoiceData) (numTables : Nat) (avail : Bool) (e : String),
        extract_hybrid localR numTables avail (Except.error e) = localR) ∧
    (∀ (localR : InvoiceData) (e : String),
        extract_with_llm true localR (Except.error e) = Except.error e) ∧
    (∀ (localR : InvoiceData) (remote : Except String InvoiceData),
        extract_with_llm false localR remote = Except.ok localR) ∧
    (∀ (localR llmR : InvoiceData),
        extract_with_llm true localR (Except.ok llmR) = Except.ok llmR) := by
  refine ⟨fun localR nT avail e => ?_, fun localR e => rfl, fun localR r => rfl,
    fun localR llmR => rfl⟩
  unfold extract_hybrid
  split <;> rfl

/-- Counterexample to C4's force-remote part: with Claude available, a raised
remote error propagates out of `_extract_with_llm` (no fallback to local). -/
theorem c4_counterexample :
    extract_with_llm true sampleLocal (Except.error ("timeout")) =
        Except.error ("timeout") ∧
      (Except.error ("timeout") : Except String InvoiceData) ≠
        Except.ok sampleLocal :=
  ⟨rfl, fun h => Except.noConfusion h⟩

/-- C7 (corrected): the totals cross-validation never repairs an inconsistent
complete triple — whenever subtotal, tax and total are all present (nonzero)
the three results are returned unchanged, consistent or not; when exactly two
of the three are present the third is derived by arithmetic at confidence 0.7
(for a missing subtotal this holds whenever total ≠ tax, otherwise the 21%
IVA estimation replaces the zero derived subtotal). -/
theorem c7_reconcile_no_inconsistency_repair :
    (∀ s t tot : ExtractionResult Money,
        s.value ≠ 0 → t.value ≠ 0 → tot.value ≠ 0 →
        reconcile_totals s t tot = (s, t, tot)) ∧
    (∀ (s tot : ExtractionResult Money) (c : ℚ) (src : String),
        s.value ≠ 0 → tot.value ≠ 0 →
        reconcile_totals s ⟨0, c, src⟩ tot =
          (s, ⟨tot.value - s.value, 7/10, "pattern"⟩, tot)) ∧
    (∀ (t tot : ExtractionResult Money) (c : ℚ) (src : String),
        t.value ≠ 0 → tot.value ≠ 0 → tot.value ≠ t.value →
        reconcile_totals ⟨0, c, src⟩ t tot =
          (⟨tot.value - t.value, 7/10, "pattern"⟩, t, tot)) ∧
    (∀ (s t : ExtractionResult Money) (c : ℚ) (src : String),
        s.value ≠ 0 → t.value ≠ 0 →
        reconcile_totals s t ⟨0, c, src⟩ =
          (s, t, ⟨s.value + t.value, 7/10, "pattern"⟩)) := by
  refine ⟨fun s t tot hs ht htot => ?_, fun s tot c src hs htot => ?_,
    fun t tot c src ht htot hne => ?_, fun s t c src hs ht => ?_⟩
  · simp [reconcile_totals, truthyMoney, hs, ht, htot]
  · simp [reconcile_totals, truthyMoney, hs, htot]
  · have hsub : tot.value - t.value ≠ 0 := sub_ne_zero.mpr hne
    simp [reconcile_totals, truthyMoney, ht, htot, hsub]
  · simp [reconcile_totals, truthyMoney, hs, ht]

/-- Counterexample to C7's repair clause: subtotal 2000, tax 420, total 3000
are jointly inconsistent far beyond the tolerance, yet the cross-validator
returns all three unchanged — the tax is not recomputed as total − subtotal. -/
theorem c7_counterexample :
    reconcile_totals ⟨2000, 85/100, "pattern"⟩ ⟨420, 85/100, "pattern"⟩
        ⟨3000, 85/100, "pattern"⟩ =
      (⟨2000, 85/100, "pattern"⟩, ⟨420, 85/100, "pattern"⟩,
        ⟨3000, 85/100, "pattern"⟩) ∧
      |(3000 : ℚ) - (2000 + 420)| > 2/100 ∧
      (420 : ℚ) ≠ 3000 - 2000 :=
  ⟨by norm_num [reconcile_totals, truthyMoney], by norm_num, by norm_num⟩

/-- Witness for C7 (amended): the spec's own examples — a consistent complete
triple is unchanged, and a missing tax is derived as 2420 − 2000 = 420. -/
theorem c7_witness :
    reconcile_totals ⟨2000, 85/100, "pattern"⟩ ⟨420, 85/100, "pattern"⟩
        ⟨2420, 85/100, "pattern"⟩ =
      (⟨2000, 85/100, "pattern"⟩, ⟨420, 85/100, "pattern"⟩,
        ⟨2420, 85/100, "pattern"⟩) ∧
    reconcile_totals ⟨2000, 85/100, "pattern"⟩ ⟨0, 0, "pattern"⟩
        ⟨2420, 85/100, "pattern"⟩ =
      (⟨2000, 85/100, "pattern"⟩, ⟨420, 7/10, "pattern"⟩,
        ⟨2420, 85/100, "pattern"⟩) :=
  ⟨c7_reconcile_no_inconsistency_repair.1 _ _ _ (by norm_num) (by norm_num)
      (by norm_num),
    (c7_reconcile_no_inconsistency_repair.2.1 ⟨2000, 85/100, "pattern"⟩
        ⟨2420, 85/100, "pattern"⟩ 0 ("pattern") (by norm_num)
        (by norm_num)).trans (by norm_num)⟩

/-- Counterexample to C5's unresolved-signal clause: on a text where no date
format succeeds (all three pattern searches return `none`), the extractor
returns **today's date** at confidence 0.3 — a value indistinguishable from a
genuinely found date, as shown by a second text whose parsed date equals the
first result's value. -/
theorem c5_counterexample :
    (extract_invoice_date ("Sin datos").data ⟨2026, 10, 12⟩).value =
        ⟨2026, 10, 12⟩ ∧
      (extract_invoice_date ("Sin datos").data ⟨2026, 10, 12⟩).confidence =
        3/10 ∧
      isoDate ("Sin datos").data = none ∧
      euroDate ("Sin datos").data = none ∧
      spanishDate ("Sin datos").data = none ∧
      (extract_invoice_date ("Fecha: 12/10/2026").data ⟨1999, 1, 1⟩).value =
        ⟨2026, 10, 12⟩ ∧
      (extract_invoice_date ("Fecha: 12/10/2026").data ⟨1999, 1, 1⟩).confidence =
        9/10 :=
  ⟨by decide, by with_unfolding_all decide, by decide, by decide, by decide,
    by decide, by with_unfolding_all decide⟩

/-- C5 (corrected): the date extractor tries ISO (confidence 0.95), then
day-first numeric (0.9), then the Spanish month-name format (0.95) over the
`fecha`-window (or whole-content) search text, first successful parse winning;
when every format fails it returns today's date at confidence 0.3 rather than
a distinct unresolved signal. -/
theorem c5_format_order_and_today_fallback (st : List Char) (today : Date) :
    (∀ content : List Char,
        extract_invoice_date content today =
          extract_date_from ((reSearch matchFechaAt content).getD content)
            today) ∧
    (∀ d, isoDate st = some d →
        extract_date_from st today = ⟨d, 95/100, "pattern"⟩) ∧
    (isoDate st = none → ∀ d, euroDate st = some d →
        extract_date_from st today = ⟨d, 9/10, "pattern"⟩) ∧
    (isoDate st = none → euroDate st = none → ∀ d, spanishDate st = some d →
        extract_date_from st today = ⟨d, 95/100, "pattern"⟩) ∧
    (isoDate st = none → euroDate st = none → spanishDate st = none →
        extract_date_from st today = ⟨today, 3/10, "pattern"⟩) := by
  refine ⟨fun content => rfl, fun d h => ?_, fun h1 d h2 => ?_,
    fun h1 h2 d h3 => ?_, fun h1 h2 h3 => ?_⟩
  · unfold extract_date_from
    rw [h]
  · unfold extract_date_from
    rw [h1, h2]
  · unfold extract_date_from
    rw [h1, h2, h3]
  · unfold extract_date_from
    rw [h1, h2, h3]

/-- Witness for C5 (amended): on a concrete no-date text the fallback clause
produces today's date at confidence 0.3. -/
theorem c5_witness :
    extract_date_from ("Sin datos").data ⟨2026, 1, 1⟩ =
      ⟨⟨2026, 1, 1⟩, 3/10, "pattern"⟩ :=
  (c5_format_order_and_today_fallback ("Sin datos").data ⟨2026, 1, 1⟩).2.2.2.2
    (by decide) (by decide) (by decide)

/-- C8 (confirmed): `_parse_decimal` disambiguates separators as specified —
with both separators present, the right-most one becomes the decimal point
and the other is stripped; a lone comma within the last three characters is
decimal, otherwise a thousands separator — `parse_amount("1.234,56") =
1234.56`, `parse_amount("1,234.56") = 1234.56`, `parse_amount("100,00 €") =
100.00`, and every input whose cleaned form fails to parse (or to quantize)
yields the `Decimal("0")` sentinel instead of an exception. -/
theorem c8_parse_amount_separator_rules :
    parse_decimal ("1.234,56") = 123456/100 ∧
    parse_decimal ("1,234.56") = 123456/100 ∧
    parse_decimal ("100,00 €") = 100 ∧
    (∀ s : String, (cleanAmount s).contains ',' = true →
      (cleanAmount s).contains '.' = true →
      parse_decimal s = decimalParse (
        if lastIdxOf (cleanAmount s) ',' > lastIdxOf (cleanAmount s) '.' then
          ((cleanAmount s).filter (fun c => c ≠ '.')).map
            (fun c => if c == ',' then '.' else c)
        else (cleanAmount s).filter (fun c => c ≠ ','))) ∧
    (∀ s : String, (cleanAmount s).contains ',' = true →
      (cleanAmount s).contains '.' = false →
      parse_decimal s = decimalParse (
        if (cleanAmount s).count ',' == 1 &&
            (lastIdxOf (cleanAmount s) ',' : ℤ) >
              ((cleanAmount s).length : ℤ) - 4 then
          (cleanAmount s).map (fun c => if c == ',' then '.' else c)
        else (cleanAmount s).filter (fun c => c ≠ ','))) ∧
    (∀ s : String,
      (pythonDecimal (sepNormalize (cleanAmount s))).bind quantize2Checked =
        none → parse_decimal s = 0) := by
  refine ⟨?_, ?_, ?_, fun s h1 h2 => ?_, fun s h1 h2 => ?_, fun s h => ?_⟩
  · exact (show parse_decimal ("1.234,56") = mkRat 123456 100 by decide).trans
      (by norm_num [Rat.mkRat_eq_div])
  · exact (show parse_decimal ("1,234.56") = mkRat 123456 100 by decide).trans
      (by norm_num [Rat.mkRat_eq_div])
  · exact (show parse_decimal ("100,00 €") = mkRat 100 1 by decide).trans
      (by norm_num [Rat.mkRat_eq_div])
  · simp only [parse_decimal, sepNormalize, h1, h2, Bool.and_self, if_true]
  · simp only [parse_decimal, sepNormalize, h1, h2, Bool.and_false, Bool.false_eq_true,
      if_false, if_true]
  · simp only [parse_decimal, decimalParse]
    rw [h]

/-- Witness for C8: a concrete unparseable input takes the zero-sentinel
branch. -/
theorem c8_witness :
    (pythonDecimal (sepNormalize (cleanAmount ("texto sin importe")))).bind
        quantize2Checked = none ∧
      parse_decimal ("texto sin importe") = 0 :=
  ⟨by decide,
   c8_parse_amount_separator_rules.2.2.2.2.2 ("texto sin importe") (by decide)⟩

set_option maxHeartbeats 1000000

/-- The three 9-character patterns, characterized propositionally on the nine
characters (helper for the tax-identifier grammar theorem). -/
theorem tax_match_iff_nine (a d1 d2 d3 d4 d5 d6 d7 k : Char) :
    (matchesCIF [a, d1, d2, d3, d4, d5, d6, d7, k] ||
     matchesNIF [a, d1, d2, d3, d4, d5, d6, d7, k] ||
     matchesNIE [a, d1, d2, d3, d4, d5, d6, d7, k]) = true ↔
    ((∀ c ∈ [d1, d2, d3, d4, d5, d6, d7], isDigitChar c = true) ∧
      ((a ∈ cifLetters ∧ (('A' ≤ k ∧ k ≤ 'J') ∨ isDigitChar k = true)) ∨
       (isDigitChar a = true ∧ isUpperAlpha k = true) ∨
       ((a = 'X' ∨ a = 'Y' ∨ a = 'Z') ∧ isUpperAlpha k = true))) := by
  simp only [matchesCIF, matchesNIF, matchesNIE, isCifControl, List.contains,
    List.elem_iff, List.all_cons, List.all_nil, Bool.or_eq_true,
    Bool.and_eq_true, decide_eq_true_eq, beq_iff_eq, List.mem_cons,
    List.not_mem_nil, or_false, forall_eq_or_imp, forall_eq, and_true]
  tauto

/-- List-level form of the tax-identifier validator characterization (helper):
the guarded pattern disjunction holds exactly of the nine-character shapes. -/
theorem tax_shape_list (cs : List Char) :
    (if cs.length ≠ 9 then false
     else matchesCIF cs || matchesNIF cs || matchesNIE cs) = true ↔
    (∃ a d1 d2 d3 d4 d5 d6 d7 k,
      cs = [a, d1, d2, d3, d4, d5, d6, d7, k] ∧
      (∀ c ∈ [d1, d2, d3, d4, d5, d6, d7], isDigitChar c = true) ∧
      ((a ∈ cifLetters ∧ (('A' ≤ k ∧ k ≤ 'J') ∨ isDigitChar k = true)) ∨
       (isDigitChar a = true ∧ isUpperAlpha k = true) ∨
       ((a = 'X' ∨ a = 'Y' ∨ a = 'Z') ∧ isUpperAlpha k = true))) := by
  by_cases hlen : cs.length = 9
  · rw [if_neg (by omega)]
    obtain ⟨a, t1, rfl⟩ := List.exists_of_length_succ cs (show _ = 8 + 1 from hlen)
    simp only [List.length_cons] at hlen
    obtain ⟨d1, t2, rfl⟩ := List.exists_of_length_succ t1 (show _ = 7 + 1 by omega)
    simp only [List.length_cons] at hlen
    obtain ⟨d2, t3, rfl⟩ := List.exists_of_length_succ t2 (show _ = 6 + 1 by omega)
    simp only [List.length_cons] at hlen
    obtain ⟨d3, t4, rfl⟩ := List.exists_of_length_succ t3 (show _ = 5 + 1 by omega)
    simp only [List.length_cons] at hlen
    obtain ⟨d4, t5, rfl⟩ := List.exists_of_length_succ t4 (show _ = 4 + 1 by omega)
    simp only [List.length_cons] at hlen
    obtain ⟨d5, t6, rfl⟩ := List.exists_of_length_succ t5 (show _ = 3 + 1 by omega)
    simp only [List.length_cons] at hlen
    obtain ⟨d6, t7, rfl⟩ := List.exists_of_length_succ t6 (show _ = 2 + 1 by omega)
    simp only [List.length_cons] at hlen
    obtain ⟨d7, t8, rfl⟩ := List.exists_of_length_succ t7 (show _ = 1 + 1 by omega)
    simp only [List.length_cons] at hlen
    obtain ⟨k, t9, rfl⟩ := List.exists_of_length_succ t8 (show _ = 0 + 1 by omega)
    simp only [List.length_cons] at hlen
    obtain rfl : t9 = [] := List.length_eq_zero.mp (by omega)
    rw [tax_match_iff_nine]
    constructor
    · intro h
      exact ⟨a, d1, d2, d3, d4, d5, d6, d7, k, rfl, h.1, h.2⟩
    · rintro ⟨a', e1, e2, e3, e4, e5, e6, e7, k', heq, h1, h2⟩
      simp only [List.cons.injEq, and_true] at heq
      obtain ⟨rfl, rfl, rfl, rfl, rfl, rfl, rfl, rfl, rfl⟩ := heq
      exact ⟨h1, h2⟩
  · rw [if_pos hlen]
    simp only [Bool.false_eq_true, false_iff]
    rintro ⟨a, d1, d2, d3, d4, d5, d6, d7, k, heq, -, -⟩
    rw [heq] at hlen
    simp at hlen

/-- Counterexample to C9: "K1234567A" satisfies the claimed grammar (a letter,
seven digits, a trailing alphanumeric check character) but the validator
rejects it — the CIF pattern restricts the leading letter to
`ABCDEFGHJNPQRSUVW`, which excludes K. -/
theorem c9_counterexample :
    claimTaxValid ("K1234567A") = true ∧
      validate_tax_id ("K1234567A") = false := by
  decide

/-- C9 (corrected): the validator accepts exactly the 9-character strings of
one of three restricted shapes — a CIF letter (from `ABCDEFGHJNPQRSUVW`) +
7 digits + check character in A-J or a digit; 8 digits + an upper-case
letter; or X/Y/Z + 7 digits + an upper-case letter — and returns false for
every other string (the function is total, so it never raises). -/
theorem c9_tax_id_grammar (s : String) :
    validate_tax_id s = true ↔ TaxIdShape s := by
  unfold validate_tax_id TaxIdShape
  exact tax_shape_list s.data

/-- Witness for C9 (amended): the CIF "B12345678" is accepted and has the
shape. -/
theorem c9_witness : TaxIdShape ("B12345678") :=
  (c9_tax_id_grammar ("B12345678")).mp (by decide)

/-- C10 (confirmed): every record the remote (Claude) parse path produces has
`confidence_score` exactly 0.92 and `requires_review = false`, independent of
the extracted content; consequently in the hybrid comparison (escalation
triggered, remote record of confidence 0.92) the remote record is kept when
the local confidence is below 0.92, and the local record otherwise. -/
theorem c10_remote_confidence_and_hybrid_choice :
    (∀ (n : Option String) (di dd : Option Date) (sup cl : RemoteCompany)
        (rl : List RemoteLine) (s0 t0 tt0 : Option ℚ)
        (cur pm nt : Option String) (today : Date) (r : InvoiceData),
        parse_extracted_data n di dd sup cl rl s0 t0 tt0 cur pm nt today =
          some r →
        r.confidence_score = 92/100 ∧ r.requires_review = false) ∧
    (∀ (localR llm : InvoiceData) (numTables : Nat),
        should_escalate_to_llm localR numTables = true →
        llm.confidence_score = 92/100 →
        (localR.confidence_score < 92/100 →
          extract_hybrid localR numTables true (Except.ok llm) = llm) ∧
        (92/100 ≤ localR.confidence_score →
          extract_hybrid localR numTables true (Except.ok llm) = localR)) := by
  constructor
  · intro n di dd sup cl rl s0 t0 tt0 cur pm nt today r h
    simp only [parse_extracted_data] at h
    split at h
    · have hr := construct_some _ _ _ _ _ _ _ _ _ _ _ _ _ _ _ h
      subst hr
      refine ⟨rfl, ?_⟩
      show check_confidence false (some (92/100)) = false
      simp only [check_confidence]
      rw [if_neg (by norm_num)]
    · exact Option.noConfusion h
  · intro localR llm numTables hesc hconf
    unfold extract_hybrid
    simp only [hesc, Bool.and_self, if_true]
    rw [hconf]
    constructor
    · intro hlt
      rw [if_pos hlt]
    · intro hge
      rw [if_neg (not_lt.mpr hge)]

/-- Witness for C10: a concrete remote JSON yields the record with confidence
0.92 and no review flag. -/
theorem c10_witness :
    parse_extracted_data (some ("INV-9")) none none
        (sampleRemoteCompany ("Acme")) (sampleRemoteCompany ("Beta")) []
        (some 100) (some 21) (some 121) none none none ⟨2026, 1, 1⟩ =
      some remoteRecord ∧
    remoteRecord.confidence_score = 92/100 ∧
    remoteRecord.requires_review = false :=
  ⟨by with_unfolding_all decide,
   c10_remote_confidence_and_hybrid_choice.1 (some ("INV-9")) none none
     (sampleRemoteCompany ("Acme")) (sampleRemoteCompany ("Beta")) []
     (some 100) (some 21) (some 121) none none none ⟨2026, 1, 1⟩ remoteRecord
     (by with_unfolding_all decide)⟩

end InvoiceAI
